import Mathlib

/-!
Shallow embedding of `limiter.py` (transmission-bandwidth-limiter).

Modelling conventions:
- Instants (`datetime`) are integers (seconds); `timedelta(days=1)` is 86400, etc.
- The sample store (the sqlite `time_slice` table) is a `List TimeSlice`;
  the SQL queries of `should_throttle` become `argmax` / `argmin` over the list.
- Python `float` values arising in `parse_size` are idealized as exact
  rationals: the numeric prefix `"12.5"` denotes the rational 125/10, kept as
  a (numerator, number-of-fraction-digits) pair so everything computes in `Nat`.
- Python `int(x)` on a non-negative value is `Nat` floor division.
- Python truthiness of the `Optional[int]` limit fields (`None` and `0` are
  falsy) is the `truthy` predicate below.
-/

/-- One row of the `time_slice` table: `timestamp` (unique key) and
`data_usage` (cumulative bytes, a Python int, unbounded). -/
structure TimeSlice where
  timestamp : Int
  data_usage : Int
  deriving DecidableEq, Repr

/-- The query `TimeSlice.select().where(timestamp < t).order_by(timestamp.desc()).get()`:
the sample with the greatest timestamp strictly below `t`, if any. -/
def find_latest_before (store : List TimeSlice) (t : Int) : Option TimeSlice :=
  (store.filter fun s => s.timestamp < t).argmax TimeSlice.timestamp

/-- The query `TimeSlice.select().order_by(timestamp.asc()).get()`:
the sample with the smallest timestamp, if any. -/
def find_earliest (store : List TimeSlice) : Option TimeSlice :=
  store.argmin TimeSlice.timestamp

/-- The baseline-selection logic of `should_throttle`: try
`find_latest_before`, on `DoesNotExist` fall back to `find_earliest`. -/
def baseline (store : List TimeSlice) (past_reference : Int) : Option TimeSlice :=
  match find_latest_before store past_reference with
  | some s => some s
  | none => find_earliest store

/-- The function `should_throttle(db, past_reference, current_data_usage,
usage_limit, is_throttled)` of `limiter.py`. `is_throttled` only affects the
log severity in the source, never the returned verdict. Returns `False` on an
empty store, else compares `delta = current - baseline` against the limit. -/
def should_throttle (store : List TimeSlice) (past_reference : Int)
    (current_data_usage : Int) (usage_limit : Int) (is_throttled : Bool) : Bool :=
  match baseline store past_reference with
  | none => false
  | some past_slice => current_data_usage - past_slice.data_usage > usage_limit

/-- The Window Evaluator as the spec presents it (section 4.3): the pair
`(exceeded, usage_since)`, with `(false, 0)` on an empty store. Spec-side
companion of `should_throttle`, used to state the claims that mention
`usage_since`. -/
def evaluate (store : List TimeSlice) (reference_start : Int)
    (current_usage : Int) (threshold : Int) : Bool × Int :=
  match baseline store reference_start with
  | none => (false, 0)
  | some s => (current_usage - s.data_usage > threshold, current_usage - s.data_usage)

/-- The statement `TimeSlice.delete().where(TimeSlice.timestamp < t).execute()`:
the store keeps exactly the samples with timestamp not below `t`. -/
def delete_before (store : List TimeSlice) (t : Int) : List TimeSlice :=
  store.filter fun s => !(s.timestamp < t)

/-- Reference point `one_day_ago = max(first_of_the_month, now - timedelta(days=1))`. -/
def one_day_ago (first_of_the_month now : Int) : Int :=
  max first_of_the_month (now - 86400)

/-- Reference point `one_week_ago = max(first_of_the_month, now - timedelta(weeks=1))`. -/
def one_week_ago (first_of_the_month now : Int) : Int :=
  max first_of_the_month (now - 7 * 86400)

/-- Reference point `four_weeks_ago = max(first_of_the_month, now - timedelta(weeks=4))`. -/
def four_weeks_ago (first_of_the_month now : Int) : Int :=
  max first_of_the_month (now - 28 * 86400)

/-- Reference point `one_month_ago = max(first_of_the_month, now - timedelta(days=30))`. -/
def one_month_ago (first_of_the_month now : Int) : Int :=
  max first_of_the_month (now - 30 * 86400)

/-- The parsed limit arguments of `parse_args`: each is `None` or an int. -/
structure Args where
  daily_limit : Option Int
  weekly_limit : Option Int
  monthly_limit : Option Int
  deriving DecidableEq, Repr

/-- Python truthiness of an `Optional[int]`: `None` and `0` are falsy. -/
def truthy : Option Int → Bool
  | none => false
  | some n => !(n == 0)

/-- The throttle-aggregation loop of `main` (lines 166-195): starting from
`throttle = False`, `|=` the `should_throttle` verdict of each window guarded
by the truthiness of the corresponding limit, in source order. -/
def main_throttle (args : Args) (store : List TimeSlice)
    (first_of_the_month now : Int) (current_data_usage : Int)
    (is_throttled : Bool) : Bool :=
  let throttle := false
  let throttle :=
    if truthy args.daily_limit then
      let d := args.daily_limit.getD 0
      ((throttle
        || should_throttle store (one_day_ago first_of_the_month now)
            current_data_usage d is_throttled)
        || should_throttle store (one_week_ago first_of_the_month now)
            current_data_usage (d * 7) is_throttled)
        || should_throttle store (one_month_ago first_of_the_month now)
            current_data_usage (d * 30) is_throttled
    else throttle
  let throttle :=
    if truthy args.weekly_limit then
      let w := args.weekly_limit.getD 0
      (throttle
        || should_throttle store (one_week_ago first_of_the_month now)
            current_data_usage w is_throttled)
        || should_throttle store (four_weeks_ago first_of_the_month now)
            current_data_usage (w * 4) is_throttled
    else throttle
  if truthy args.monthly_limit then
    throttle
      || should_throttle store (one_month_ago first_of_the_month now)
          current_data_usage (args.monthly_limit.getD 0) is_throttled
  else throttle

/-- The window list the spec enumerates in section 4.4 step 3, in source
order; a limit counts as "set" exactly when the source's truthiness guard
fires. Spec-side companion used to state claim C2. -/
def spec_windows (args : Args) (first_of_the_month now : Int) : List (Int × Int) :=
  (if truthy args.daily_limit then
    let d := args.daily_limit.getD 0
    [(one_day_ago first_of_the_month now, d),
     (one_week_ago first_of_the_month now, d * 7),
     (one_month_ago first_of_the_month now, d * 30)]
  else []) ++
  (if truthy args.weekly_limit then
    let w := args.weekly_limit.getD 0
    [(one_week_ago first_of_the_month now, w),
     (four_weeks_ago first_of_the_month now, w * 4)]
  else []) ++
  (if truthy args.monthly_limit then
    [(one_month_ago first_of_the_month now, args.monthly_limit.getD 0)]
  else [])

/-- The dict `data_units` of `limiter.py`, in insertion order. -/
def data_units : List (Char × Nat) :=
  [('b', 1), ('k', 2 ^ 10), ('m', 2 ^ 20), ('g', 2 ^ 30), ('t', 2 ^ 40)]

/-- The dict `time_units` of `limiter.py`, in insertion order. -/
def time_units : List (Char × Nat) :=
  [('m', 60), ('h', 60 * 60), ('d', 60 * 60 * 24), ('w', 60 * 60 * 24 * 7)]

/-- The errors `parse_size` can raise: `invalidNumber` is the `ValueError`
raised by `float('')` (or a malformed numeric prefix); `invalidUnitFormat` is
`ValueError("Must be formatted '5.5T', '500G', '1000M'")`; `invalidMetricKind`
is `ValueError("Metric must be 'TIME' or 'DATA'")`. -/
inductive ParseError where
  | invalidNumber
  | invalidUnitFormat
  | invalidMetricKind
  deriving DecidableEq, Repr

/-- Value of a list of ASCII digit characters, most significant first,
as Python `float` would read the integer part. -/
def digitsVal (cs : List Char) : Nat :=
  cs.foldl (fun a c => 10 * a + (c.toNat - 48)) 0

/-- Python `float(s)` on a string of digits and dots, idealized as an exact
decimal: returns `(n, k)` meaning the rational `n / 10 ^ k`, or `none` where
`float` raises `ValueError` (empty string, bare dot, two dots). -/
def parseDecimal? (cs : List Char) : Option (Nat × Nat) :=
  match cs.splitOn '.' with
  | [ip] => if ip.isEmpty then none else some (digitsVal ip, 0)
  | [ip, fp] =>
      if ip.isEmpty && fp.isEmpty then none
      else some (digitsVal (ip ++ fp), fp.length)
  | _ => none

/-- The rational a `parseDecimal?` result denotes. -/
def decimalVal (p : Nat × Nat) : ℚ :=
  (p.1 : ℚ) / 10 ^ p.2

/-- Python `int(q)` on a real value: truncation toward zero. -/
def pyTrunc (q : ℚ) : Int :=
  if 0 ≤ q then ⌊q⌋ else -⌊-q⌋

/-- Python `round(q)` (the spec's `round`): round half to even. -/
def pyRound (q : ℚ) : Int :=
  if q - ⌊q⌋ < 1 / 2 then ⌊q⌋
  else if 1 / 2 < q - ⌊q⌋ then ⌊q⌋ + 1
  else if ⌊q⌋ % 2 = 0 then ⌊q⌋ else ⌊q⌋ + 1

/-- The `match metric:` statement of `parse_size`: selects the unit table,
`none` standing for `raise ValueError("Metric must be 'TIME' or 'DATA'")`. -/
def metric_units : String → Option (List (Char × Nat))
  | "TIME" => some time_units
  | "DATA" => some data_units
  | _ => none

/-- Lower-cased character sequence of the input, as `size = size.lower()`. -/
def lowered (size : String) : List Char :=
  size.toList.map Char.toLower

/-- The function `parse_size(size, metric)` of `limiter.py`, step for step:
lower-case the input, run `float` on the digits-and-dots subsequence, select
the unit table from `metric`, take the first character of the lowered input
that is a key of the table, and return `int(number * units[unit])`. The final
value `(n * m) / 10 ^ k` (Nat division) is exactly
`int((n / 10 ^ k) * m)` since the value is non-negative. -/
def parse_size (size : String) (metric : String) : Except ParseError Int :=
  match parseDecimal? ((lowered size).filter fun c => c.isDigit || c == '.') with
  | none => .error .invalidNumber
  | some (n, k) =>
    match metric_units metric with
    | none => .error .invalidMetricKind
    | some units =>
      match (lowered size).find? (fun c => (units.lookup c).isSome) with
      | none => .error .invalidUnitFormat
      | some c => .ok ((n * (units.lookup c).getD 0 / 10 ^ k : Nat) : Int)

/-- Characterization of `find_latest_before`: a returned sample lies in the
store, is strictly before `t`, and is latest among such samples. -/
theorem find_latest_before_spec {store : List TimeSlice} {t : Int} {s : TimeSlice}
    (h : find_latest_before store t = some s) :
    s ∈ store ∧ s.timestamp < t ∧
      ∀ s2 ∈ store, s2.timestamp < t → s2.timestamp ≤ s.timestamp := by
  have hmem := List.argmax_mem (Option.mem_def.mpr h)
  have h1 := List.mem_filter.mp hmem
  refine ⟨h1.1, by simpa using h1.2, fun s2 hs2 hlt => ?_⟩
  exact List.le_of_mem_argmax (List.mem_filter.mpr ⟨hs2, by simpa using hlt⟩)
    (Option.mem_def.mpr h)

/-- Characterization of `find_earliest`: a returned sample lies in the store
and has minimal timestamp. -/
theorem find_earliest_spec {store : List TimeSlice} {s : TimeSlice}
    (h : find_earliest store = some s) :
    s ∈ store ∧ ∀ s2 ∈ store, s.timestamp ≤ s2.timestamp :=
  ⟨List.argmin_mem (Option.mem_def.mpr h),
   fun _ hs2 => List.le_of_mem_argmin hs2 (Option.mem_def.mpr h)⟩

/-- When `find_latest_before` finds nothing, no sample is strictly before `t`. -/
theorem find_latest_before_eq_none {store : List TimeSlice} {t : Int}
    (h : find_latest_before store t = none) :
    ∀ s2 ∈ store, ¬ s2.timestamp < t := by
  intro s2 hs2
  have h2 := List.filter_eq_nil_iff.mp (List.argmax_eq_none.mp h) s2 hs2
  simpa using h2

/-- A non-empty store always has an earliest sample. -/
theorem find_earliest_eq_some_of_ne_nil {store : List TimeSlice} (h : store ≠ []) :
    ∃ s, find_earliest store = some s := by
  cases hs : find_earliest store with
  | some s => exact ⟨s, rfl⟩
  | none => exact absurd (List.argmin_eq_none.mp hs) h

/-- Claim C1: for every non-empty store, `should_throttle` picks as baseline
the sample with greatest timestamp strictly below the reference time if one
exists, else the sample with smallest timestamp overall, and returns exactly
`current_usage - baseline.data_usage > usage_limit` (strict), with the
unclamped delta `current_usage - baseline.data_usage` as `usage_since`. -/
theorem C1_window_evaluator_baseline (store : List TimeSlice) (hne : store ≠ [])
    (R U L : Int) (th : Bool) :
    ∃ s, baseline store R = some s ∧ s ∈ store ∧
      ((∃ s2 ∈ store, s2.timestamp < R) →
        s.timestamp < R ∧ ∀ s2 ∈ store, s2.timestamp < R → s2.timestamp ≤ s.timestamp) ∧
      ((¬ ∃ s2 ∈ store, s2.timestamp < R) → ∀ s2 ∈ store, s.timestamp ≤ s2.timestamp) ∧
      should_throttle store R U L th = decide (U - s.data_usage > L) ∧
      (evaluate store R U L).2 = U - s.data_usage := by
  cases hf : find_latest_before store R with
  | some s =>
    obtain ⟨hmem, hlt, hmax⟩ := find_latest_before_spec hf
    refine ⟨s, ?_, hmem, fun _ => ⟨hlt, hmax⟩,
      fun hno => absurd ⟨s, hmem, hlt⟩ hno, ?_, ?_⟩
    · simp [baseline, hf]
    · simp [should_throttle, baseline, hf]
    · simp [evaluate, baseline, hf]
  | none =>
    obtain ⟨s, hs⟩ := find_earliest_eq_some_of_ne_nil hne
    obtain ⟨hmem, hmin⟩ := find_earliest_spec hs
    have hnone := find_latest_before_eq_none hf
    refine ⟨s, ?_, hmem, fun hex => ?_, fun _ => hmin, ?_, ?_⟩
    · simp [baseline, hf, hs]
    · obtain ⟨s2, hs2, hlt⟩ := hex
      exact absurd hlt (hnone s2 hs2)
    · simp [should_throttle, baseline, hf, hs]
    · simp [evaluate, baseline, hf, hs]

/-- Witness for C1 at the one-sample store `[(0, 0)]`, reference 1,
usage 5, limit 3. -/
theorem C1_witness :
    ∃ s, baseline [⟨0, 0⟩] 1 = some s ∧ s ∈ ([⟨0, 0⟩] : List TimeSlice) ∧
      ((∃ s2 ∈ ([⟨0, 0⟩] : List TimeSlice), s2.timestamp < 1) →
        s.timestamp < 1 ∧ ∀ s2 ∈ ([⟨0, 0⟩] : List TimeSlice),
          s2.timestamp < 1 → s2.timestamp ≤ s.timestamp) ∧
      ((¬ ∃ s2 ∈ ([⟨0, 0⟩] : List TimeSlice), s2.timestamp < 1) →
        ∀ s2 ∈ ([⟨0, 0⟩] : List TimeSlice), s.timestamp ≤ s2.timestamp) ∧
      should_throttle [⟨0, 0⟩] 1 5 3 true = decide (5 - s.data_usage > 3) ∧
      (evaluate [⟨0, 0⟩] 1 5 3).2 = 5 - s.data_usage :=
  C1_window_evaluator_baseline [⟨0, 0⟩] (by decide) 1 5 3 true

/-- Claim C5: on an empty store, `should_throttle` returns `false` and the
spec-level evaluator returns `(false, 0)`, for every reference time, usage
and threshold — the system never throttles on the first run. -/
theorem C5_empty_store (R U L : Int) (th : Bool) :
    should_throttle [] R U L th = false ∧ evaluate [] R U L = (false, 0) :=
  ⟨rfl, rfl⟩

/-- Claim C8: a negative delta (current usage below the baseline's
cumulative usage) is computed and compared normally, and against any
non-negative threshold yields `exceeded = false`; the delta is propagated
unclamped as `usage_since`. -/
theorem C8_negative_delta (store : List TimeSlice) (R U L : Int) (th : Bool)
    (hL : 0 ≤ L) (s : TimeSlice) (hb : baseline store R = some s)
    (hneg : U - s.data_usage < 0) :
    should_throttle store R U L th = false ∧
      (evaluate store R U L).2 = U - s.data_usage := by
  constructor
  · unfold should_throttle
    rw [hb]
    simp only [decide_eq_false_iff_not]
    omega
  · unfold evaluate
    rw [hb]

/-- Witness for C8 at store `[(0, 100)]`, reference 1, usage 50, limit 10. -/
theorem C8_witness :
    should_throttle [⟨0, 100⟩] 1 50 10 false = false ∧
      (evaluate [⟨0, 100⟩] 1 50 10).2 = 50 - (100 : Int) :=
  C8_negative_delta [⟨0, 100⟩] 1 50 10 false (by decide) ⟨0, 100⟩ (by decide) (by decide)

/-- Claim C10: for a fixed non-empty store, reference time, threshold and
throttle flag, the `should_throttle` verdict is monotone non-decreasing in
the current usage. -/
theorem C10_monotone_in_usage (store : List TimeSlice) (hne : store ≠ [])
    (R L : Int) (th : Bool) (U U' : Int) (hU : U ≤ U')
    (h : should_throttle store R U L th = true) :
    should_throttle store R U' L th = true := by
  unfold should_throttle at h ⊢
  cases hb : baseline store R with
  | none =>
    rw [hb] at h
    exact absurd h (by simp)
  | some s =>
    rw [hb] at h
    have h2 : U - s.data_usage > L := by simpa using h
    simpa using (by omega : U' - s.data_usage > L)

/-- Witness for C10 at store `[(0, 0)]`, reference 1, limit 3,
usages 5 ≤ 6. -/
theorem C10_witness : should_throttle [⟨0, 0⟩] 1 6 3 false = true :=
  C10_monotone_in_usage [⟨0, 0⟩] (by decide) 1 3 false 5 6 (by decide) (by decide)

/-- Claim C4: each of the four reference points is
`max(first_of_the_month, now - duration)` with durations one day, seven
days, twenty-eight days and thirty days (in seconds), and consequently
every reference point is at least the reset boundary. -/
theorem C4_reference_points_clamped (first_of_the_month now : Int) :
    one_day_ago first_of_the_month now = max first_of_the_month (now - 1 * 86400) ∧
    one_week_ago first_of_the_month now = max first_of_the_month (now - 7 * 86400) ∧
    four_weeks_ago first_of_the_month now = max first_of_the_month (now - 28 * 86400) ∧
    one_month_ago first_of_the_month now = max first_of_the_month (now - 30 * 86400) ∧
    first_of_the_month ≤ one_day_ago first_of_the_month now ∧
    first_of_the_month ≤ one_week_ago first_of_the_month now ∧
    first_of_the_month ≤ four_weeks_ago first_of_the_month now ∧
    first_of_the_month ≤ one_month_ago first_of_the_month now :=
  ⟨by norm_num [one_day_ago], rfl, rfl, rfl, le_max_left _ _, le_max_left _ _,
   le_max_left _ _, le_max_left _ _⟩

/-- Counterexample to claim C3 as stated: with the single sample at
timestamp 5, boundary 10 and `now = 12`, the daily window's reference is
clamped to 10, the window uses the timestamp-5 sample as its baseline, and
`delete_before 10` removes exactly that sample. -/
theorem C3_counterexample :
    baseline [⟨5, 100⟩] (one_day_ago 10 12) = some ⟨5, 100⟩ ∧
    (⟨5, 100⟩ : TimeSlice) ∈ ([⟨5, 100⟩] : List TimeSlice) ∧
    (5 : Int) < 10 ∧
    delete_before [⟨5, 100⟩] 10 = [] := by
  decide

/-- Claim C3 amended: the pruner never removes a window's baseline provided
the store holds some sample with timestamp in `[boundary, reference)`; in
that case the baseline itself has timestamp at least the boundary and
survives `delete_before boundary`. (As stated the claim fails: when every
sample predates the boundary, the clamped window still baselines on such a
sample and the pruner removes it.) -/
theorem C3_pruner_safe_when_recent_sample (store : List TimeSlice)
    (boundary R : Int) (s2 : TimeSlice) (hs2 : s2 ∈ store)
    (hge : boundary ≤ s2.timestamp) (hlt : s2.timestamp < R) :
    ∃ s, baseline store R = some s ∧ boundary ≤ s.timestamp ∧
      s ∈ delete_before store boundary := by
  cases hf : find_latest_before store R with
  | none => exact absurd hlt (find_latest_before_eq_none hf s2 hs2)
  | some s =>
    obtain ⟨hmem, hslt, hmax⟩ := find_latest_before_spec hf
    have hbs : boundary ≤ s.timestamp := le_trans hge (hmax s2 hs2 hlt)
    refine ⟨s, by simp [baseline, hf], hbs, ?_⟩
    exact List.mem_filter.mpr ⟨hmem, by simpa using not_lt.mpr hbs⟩

/-- Witness for the amended C3 at store `[(10, 0)]`, boundary 10,
reference 11. -/
theorem C3_witness :
    ∃ s, baseline [⟨10, 0⟩] 11 = some s ∧ (10 : Int) ≤ s.timestamp ∧
      s ∈ delete_before [⟨10, 0⟩] 10 :=
  C3_pruner_safe_when_recent_sample [⟨10, 0⟩] 10 11 ⟨10, 0⟩ (by decide)
    (by decide) (by decide)

/-- Claim C2: the aggregate verdict of `main` equals the boolean OR
(`List.any`) of the per-window `should_throttle` verdicts over exactly the
windows the spec enumerates, a limit counting as set when its truthiness
guard fires. -/
theorem C2_aggregate_is_or_of_windows (args : Args) (store : List TimeSlice)
    (first_of_the_month now : Int) (current_data_usage : Int)
    (is_throttled : Bool) :
    main_throttle args store first_of_the_month now current_data_usage is_throttled =
      (spec_windows args first_of_the_month now).any
        (fun w => should_throttle store w.1 current_data_usage w.2 is_throttled) := by
  cases hd : truthy args.daily_limit <;> cases hw : truthy args.weekly_limit <;>
    cases hm : truthy args.monthly_limit <;>
      simp [main_throttle, spec_windows, hd, hw, hm, List.any_append, Bool.or_assoc]

/-- Bridging lemma: the `Nat` division `parse_size` computes is exactly
Python `int()` (truncation toward zero) applied to the exact product
`number * unit_multiplier`. -/
theorem natDiv_eq_pyTrunc (n m k : Nat) :
    ((n * m / 10 ^ k : Nat) : Int) = pyTrunc (decimalVal (n, k) * (m : ℚ)) := by
  have hq : decimalVal (n, k) * (m : ℚ) = ((n * m : Nat) : Int) / ((10 ^ k : Nat) : ℚ) := by
    unfold decimalVal
    push_cast
    ring
  have h0 : (0 : ℚ) ≤ decimalVal (n, k) * (m : ℚ) := by
    unfold decimalVal
    positivity
  unfold pyTrunc
  rw [if_pos h0, hq, Rat.floor_intCast_div_natCast]
  exact Int.ofNat_tdiv _ _

/-- Claim C6 amended: for every input whose numeric prefix parses and whose
lowered text contains a recognized unit letter, `parse_size` returns the
truncation toward zero (Python `int`, not `round`) of
`number * unit_multiplier`; the spec's two concrete examples hold as stated,
since there the product is an integer. -/
theorem C6_parse_size_value (s : String) (n k : Nat) (c : Char) (m : Nat)
    (hn : parseDecimal? ((lowered s).filter fun ch => ch.isDigit || ch == '.') = some (n, k))
    (hc : (lowered s).find? (fun ch => (data_units.lookup ch).isSome) = some c)
    (hm : data_units.lookup c = some m) :
    parse_size s "DATA" = .ok (pyTrunc (decimalVal (n, k) * (m : ℚ))) ∧
    parse_size "10g" "DATA" = .ok (10 * 2 ^ 30) ∧
    parse_size "1.5M" "DATA" = .ok 1572864 := by
  refine ⟨?_, rfl, rfl⟩
  simp only [parse_size, hn]
  rw [show metric_units "DATA" = some data_units from rfl]
  simp only [hc, hm, Option.getD_some]
  rw [natDiv_eq_pyTrunc]

/-- Witness for the amended C6 at input `"10g"`. -/
theorem C6_witness :
    parse_size "10g" "DATA" = .ok (pyTrunc (decimalVal (10, 0) * ((2 ^ 30 : Nat) : ℚ))) ∧
    parse_size "10g" "DATA" = .ok (10 * 2 ^ 30) ∧
    parse_size "1.5M" "DATA" = .ok 1572864 :=
  C6_parse_size_value "10g" 10 0 'g' (2 ^ 30) rfl rfl rfl

/-- Counterexample to claim C6 as stated: on `"1.5b"` the numeric prefix is
1.5 and the unit multiplier is 1, the code returns `int(1.5) = 1`, but the
claimed `round(1.5)` is 2. -/
theorem C6_counterexample :
    parseDecimal? ((lowered "1.5b").filter fun c => c.isDigit || c == '.') = some (15, 1) ∧
    data_units.lookup 'b' = some 1 ∧
    parse_size "1.5b" "DATA" = .ok 1 ∧
    pyRound (decimalVal (15, 1) * ((1 : Nat) : ℚ)) = 2 ∧
    (1 : Int) ≠ 2 := by
  refine ⟨rfl, rfl, rfl, ?_, by decide⟩
  have h : decimalVal (15, 1) * ((1 : Nat) : ℚ) = ((3 : Int) : ℚ) / ((2 : Nat) : ℚ) := by
    unfold decimalVal
    push_cast
    norm_num
  have hf : ⌊decimalVal (15, 1) * ((1 : Nat) : ℚ)⌋ = 1 := by
    rw [h, Rat.floor_intCast_div_natCast]
    rfl
  unfold pyRound
  rw [hf, h]
  norm_num

/-- Claim C7 amended: when the numeric prefix of the lowered input parses as
a number but no character of the lowered input is a recognized unit letter,
`parse_size` fails with `InvalidUnitFormat`. (As stated the claim fails on
`"bogus"`: its numeric prefix is empty, so `float('')` raises first, and
`"bogus"` even contains the recognized unit letters `b` and `g`.) -/
theorem C7_invalid_unit (s : String) (p : Nat × Nat)
    (hn : parseDecimal? ((lowered s).filter fun c => c.isDigit || c == '.') = some p)
    (hc : (lowered s).find? (fun c => (data_units.lookup c).isSome) = none) :
    parse_size s "DATA" = .error .invalidUnitFormat := by
  obtain ⟨n, k⟩ := p
  simp only [parse_size, hn]
  rw [show metric_units "DATA" = some data_units from rfl]
  simp only [hc]

/-- Witness for the amended C7 at input `"123"`. -/
theorem C7_witness : parse_size "123" "DATA" = .error .invalidUnitFormat :=
  C7_invalid_unit "123" (123, 0) rfl rfl

/-- Counterexample to claim C7 as stated: `parse_size "bogus" "DATA"` fails
with the numeric-conversion error, not `InvalidUnitFormat`; moreover
`"bogus"` does contain a recognized unit letter. -/
theorem C7_counterexample :
    parse_size "bogus" "DATA" = .error .invalidNumber ∧
    ParseError.invalidNumber ≠ ParseError.invalidUnitFormat ∧
    'b' ∈ lowered "bogus" ∧ (data_units.lookup 'b').isSome = true := by
  exact ⟨rfl, by decide, by decide, by decide⟩

/-- Claim C9: whenever `parse_size` succeeds, the returned integer is
non-negative, the numeric prefix containing no sign character. -/
theorem C9_parse_size_nonneg (s metric : String) (n : Int)
    (h : parse_size s metric = .ok n) : 0 ≤ n := by
  unfold parse_size at h
  split at h
  · exact absurd h (by simp)
  · split at h
    · exact absurd h (by simp)
    · split at h
      · exact absurd h (by simp)
      · simp only [Except.ok.injEq] at h
        subst h
        exact Int.natCast_nonneg _

/-- Witness for C9 at input `"10g"`. -/
theorem C9_witness : (0 : Int) ≤ 10737418240 :=
  C9_parse_size_nonneg "10g" "DATA" 10737418240 rfl
